import Mathlib

/-!
Verification of the putative-match orchestration layer of openMVG's
`software/SfM/main_ComputeMatches.cpp`.

The embedding follows the control flow of `main` statement by statement:
command-line validation, scene loading, regions-type initialisation,
region-provider construction (unbounded vs. LRU cache), the
resume-or-recompute decision on the output file, matcher allocation by
method selector, pair-list loading, pairwise matching, saving, and the
diagnostic exports (adjacency SVG and graphviz pair graph).

External collaborators whose bodies live outside the translated file
(`loadPairs`, the region providers, `Matcher::Match`, `getPairs`,
`indexedGraph`) are modelled from the specification; each such definition
carries a doc comment starting with `Modelled from the spec:`.
-/

namespace ComputeMatches

/-- A view identifier (`IndexT`). -/
abbrev ViewId := Nat

/-- An unordered pair of view ids, stored canonically (smaller id first). -/
abbrev PairKey := ViewId × ViewId

/-- One correspondence: a pair of descriptor indices (into view A's and
view B's region sets). -/
abbrev IndMatch := Nat × Nat

/-- The `PairWiseMatches` result: association list from canonical pair key
to the retained correspondence list; keys are expected unique (std::map). -/
abbrev PairWiseMatches := List (PairKey × List IndMatch)

/-- A view's region set: an ordered sequence of fixed-length descriptors. -/
abbrev RegionSet := List (List Int)

/-- The declared descriptor kind of the whole collection
(`Regions::IsScalar` / `Regions::IsBinary`). -/
inductive DescKind
  | scalar
  | binary
  | other
deriving DecidableEq

/-- The concrete matcher strategies allocatable by `main`
(lines 244-291 of the source). -/
inductive MatcherMethod
  | CASCADE_HASHING_FAST
  | BRUTE_FORCE_L2
  | BRUTE_FORCE_HAMMING
  | HNSW_L2
  | ANN_L2
  | CASCADE_HASHING_L2
deriving DecidableEq

/-- Matcher allocation, translated from the selector dispatch of `main`
(lines 244-291): `AUTO` picks `Cascade_Hashing_Matcher_Regions` for scalar
regions and brute-force Hamming for binary regions; each recognized explicit
name allocates its matcher unconditionally; anything else yields no matcher
(`collectionMatcher` stays null). -/
def matcherFor (method : String) (k : DescKind) : Option MatcherMethod :=
  if method = "AUTO" then
    match k with
    | .scalar => some .CASCADE_HASHING_FAST
    | .binary => some .BRUTE_FORCE_HAMMING
    | .other => none
  else if method = "BRUTEFORCEL2" then some .BRUTE_FORCE_L2
  else if method = "BRUTEFORCEHAMMING" then some .BRUTE_FORCE_HAMMING
  else if method = "HNSWL2" then some .HNSW_L2
  else if method = "ANNL2" then some .ANN_L2
  else if method = "CASCADEHASHINGL2" then some .CASCADE_HASHING_L2
  else if method = "FASTCASCADEHASHINGL2" then some .CASCADE_HASHING_FAST
  else none

/-- Which descriptor kind each explicit selector is documented for, taken
from the usage text of the source (lines 103-112): the five `...L2` names
are for scalar descriptors, `BRUTEFORCEHAMMING` for binary ones, and
`AUTO` fits both. Used to state claims about incompatible selectors. -/
def specCompatible (method : String) (k : DescKind) : Bool :=
  if method = "AUTO" then (k = DescKind.scalar || k = DescKind.binary)
  else if method = "BRUTEFORCEHAMMING" then k = DescKind.binary
  else if (method = "BRUTEFORCEL2" || method = "HNSWL2" || method = "ANNL2"
        || method = "CASCADEHASHINGL2" || method = "FASTCASCADEHASHINGL2") then
    k = DescKind.scalar
  else false

/-- The two operating modes of the region provider selected by `main`
(lines 186-195). -/
inductive ProviderKind
  | unbounded
  | cache (capacity : Nat)
deriving DecidableEq

/-- The provider-mode dispatch of `main` (lines 186-195): cache size 0
constructs the plain `Regions_Provider`, any positive size constructs
`Regions_Provider_Cache` with that capacity. -/
def providerFor (cacheSize : Nat) : ProviderKind :=
  if cacheSize = 0 then ProviderKind.unbounded
  else ProviderKind.cache cacheSize

/-- Modelled from the spec: the unbounded `Regions_Provider` — `load`
eagerly reads every view's RegionSet at startup and fails if any view's
data cannot be loaded; afterwards the table is immutable. -/
def eagerLoad (views : List ViewId) (disk : ViewId → Option RegionSet) :
    Option (List (ViewId × RegionSet)) :=
  if views.all (fun v => (disk v).isSome) then
    some (views.filterMap (fun v => (disk v).map (fun r => (v, r))))
  else none

/-- Modelled from the spec: `fetch` on the unbounded provider is a pure
lookup in the eagerly built table; it mutates nothing and never evicts. -/
def eagerFetch (table : List (ViewId × RegionSet)) (v : ViewId) :
    Option RegionSet :=
  (table.find? (fun e => e.1 == v)).map (fun e => e.2)

/-- Modelled from the spec: the state of the bounded
`Regions_Provider_Cache` — entries kept most-recently-used first, never
more than `capacity` of them. -/
structure LruCache where
  capacity : Nat
  entries : List (ViewId × RegionSet)
deriving DecidableEq

/-- Modelled from the spec: a freshly constructed bounded cache of the
given capacity holds nothing (regions are loaded lazily, on demand). -/
def LruCache.start (c : Nat) : LruCache := ⟨c, []⟩

/-- Modelled from the spec: `fetch` on the bounded cache — a hit moves the
entry to the front (recency touch, no eviction); a miss loads from disk,
inserts at the front and drops least-recently-used entries beyond the
capacity; a failed load leaves the cache unchanged. -/
def LruCache.fetch (cache : LruCache) (disk : ViewId → Option RegionSet)
    (v : ViewId) : Option RegionSet × LruCache :=
  match cache.entries.find? (fun e => e.1 == v) with
  | some e =>
      (some e.2,
        ⟨cache.capacity, (v, e.2) :: cache.entries.eraseP (fun x => x.1 == v)⟩)
  | none =>
      match disk v with
      | none => (none, cache)
      | some r =>
          (some r, ⟨cache.capacity, ((v, r) :: cache.entries).take cache.capacity⟩)

/-- Canonicalize a pair: smaller id first. -/
def canonPair (p : Nat × Nat) : PairKey :=
  if p.1 ≤ p.2 then p else (p.2, p.1)

/-- The two failure modes of pair-list loading. -/
inductive PairError
  | ParseError
  | InvalidPair
deriving DecidableEq

/-- Modelled from the spec: `loadPairs(viewCount, source)` — a malformed
source fails with `ParseError`; a referenced id at or above `viewCount`
fails with `InvalidPair`; otherwise every entry is canonicalized (smaller
id first) and duplicates are dropped, so the returned set has no duplicate
canonical keys. -/
def loadPairs (viewCount : Nat) (source : Option (List (Nat × Nat))) :
    Except PairError (List PairKey) :=
  match source with
  | none => .error .ParseError
  | some l =>
      if l.any (fun p => viewCount ≤ p.1 || viewCount ≤ p.2) then
        .error .InvalidPair
      else
        .ok (l.map canonPair).dedup

/-- The distance metric attached to each strategy: Hamming for the binary
strategy, (squared) Euclidean for the scalar ones. -/
def sqDist (a b : List Int) : ℚ :=
  (((a.zip b).map (fun p => (p.1 - p.2) * (p.1 - p.2))).sum : Int)

/-- Hamming distance: number of differing coordinates. -/
def hamDist (a b : List Int) : ℚ :=
  (((a.zip b).filter (fun p => p.1 != p.2)).length : Nat)

/-- Metric selection per strategy. -/
def distFor : MatcherMethod → (List Int → List Int → ℚ)
  | .BRUTE_FORCE_HAMMING => hamDist
  | _ => sqDist

/-- Smallest and second-smallest of an indexed distance list: returns the
index and value of the minimum together with the second-smallest value. -/
def twoSmallest : List (Nat × ℚ) → Option ((Nat × ℚ) × ℚ)
  | [] => none
  | [_] => none
  | x :: y :: rest =>
      some (rest.foldl
        (fun (acc : (Nat × ℚ) × ℚ) z =>
          if z.2 < acc.1.2 then (z, acc.1.2)
          else if z.2 < acc.2 then (acc.1, z.2)
          else acc)
        (if x.2 ≤ y.2 then (x, y.2) else (y, x.2)))

/-- Modelled from the spec: nearest/second-nearest ratio matching of one
region set against another — for every descriptor of `A`, find its nearest
and second-nearest descriptor in `B` under `dist`; retain the pair of
indices iff `distance(nearest) < ratio * distance(second_nearest)`; if `B`
has fewer than two descriptors, no correspondences are produced. -/
def matchDescriptors (dist : List Int → List Int → ℚ) (ratio : ℚ)
    (A B : List (List Int)) : List IndMatch :=
  A.enum.filterMap (fun iq =>
    match twoSmallest ((B.map (dist iq.2)).enum) with
    | none => none
    | some bd => if bd.1.2 < ratio * bd.2 then some (iq.1, bd.1.1) else none)

/-- Modelled from the spec: `Matcher::Match` — for each pair of the input
set, obtain both region sets, compute the ratio-filtered correspondences,
and store the retained list, possibly empty, under the pair's canonical
key; a per-pair fetch failure degrades that pair's result to an empty list
and never aborts the run. -/
def engineMatch (mm : MatcherMethod) (ratio : ℚ)
    (regions : ViewId → Option RegionSet) (pairs : List PairKey) :
    PairWiseMatches :=
  pairs.map (fun p =>
    (p, match regions p.1, regions p.2 with
        | some A, some B => matchDescriptors (distFor mm) ratio A B
        | _, _ => []))

/-- The diagnostic match graph. -/
structure MatchGraph where
  nodes : Finset ViewId
  edges : Finset PairKey
deriving DecidableEq

/-- Modelled from the spec: `getPairs` over the final result keeps exactly
the pair keys whose correspondence list is nonempty (a key with an empty
list contributes no edge). -/
def getPairsNonempty (m : PairWiseMatches) : List PairKey :=
  (m.filter (fun e => !e.2.isEmpty)).map Prod.fst

/-- Modelled from the spec: `indexedGraph` construction (lines 320-328) —
nodes are all view identifiers of the scene catalog (also isolated ones),
edges are the pair keys of the result with a nonempty correspondence
list. -/
def buildGraph (viewIds : Finset ViewId) (m : PairWiseMatches) : MatchGraph :=
  ⟨viewIds, (getPairsNonempty m).toFinset⟩

/-- The configuration surface of `main` (lines 67-83), with source
defaults: ratio 0.8, method `AUTO`, force off, cache size 0. -/
structure Config where
  input_file : String
  output_file : String
  pair_list : String
  ratio : ℚ
  method : String
  force : Bool
  cache_size : Nat

/-- The outcomes of every external interaction `main` performs, fixed up
front so that the run is a pure function of them. `outFile` is the state
of the output path: `none` = no file, `some none` = a file that fails to
load, `some (some m)` = a file holding matches `m`. -/
structure World where
  sceneLoadOk : Bool
  views : Finset ViewId
  regionsTypeOk : Bool
  descKind : DescKind
  regionsLoadOk : Bool
  outFile : Option (Option PairWiseMatches)
  pairSource : Option (List (Nat × Nat))
  regions : ViewId → Option RegionSet
  saveOk : Bool
  svgWriteOk : Bool
  graphWriteOk : Bool

/-- Everything observable about one run of `main`: the exit status, which
stages executed, and the state of the output path afterwards. -/
structure RunResult where
  exit : Nat
  sceneLoaded : Bool
  regionsTypeLoaded : Bool
  providerKind : Option ProviderKind
  regionsLoaded : Bool
  matcherAllocated : Option MatcherMethod
  pairsLoaded : Option (List PairKey)
  matchingPerformed : Bool
  finalMatches : Option PairWiseMatches
  outFileAfter : Option (Option PairWiseMatches)
  savedOutput : Bool
  svgWritten : Bool
  graphWritten : Bool
  graph : Option MatchGraph

/-- The result before any stage has run: exit 0, nothing executed, output
path untouched. -/
def startResult (w : World) : RunResult :=
  { exit := 0, sceneLoaded := false, regionsTypeLoaded := false
    providerKind := none, regionsLoaded := false, matcherAllocated := none
    pairsLoaded := none, matchingPerformed := false, finalMatches := none
    outFileAfter := w.outFile, savedOutput := false, svgWritten := false
    graphWritten := false, graph := none }

/-- The diagnostic tail of `main` (lines 316-330): the adjacency-matrix
SVG and the graphviz pair graph are written best-effort — both exporters
return no status and `main` checks nothing — and the run then returns
`EXIT_SUCCESS` unconditionally. -/
def finishDiagnostics (w : World) (r : RunResult) : RunResult :=
  match r.finalMatches with
  | some m =>
      { r with svgWritten := w.svgWriteOk
               graph := some (buildGraph w.views m)
               graphWritten := w.graphWriteOk
               exit := 0 }
  | none => { r with svgWritten := w.svgWriteOk, exit := 0 }

/-- The `main` function of `main_ComputeMatches.cpp`, translated statement
by statement: required-argument checks (lines 135-144), scene load (156),
regions-type initialisation (170), provider construction (186-195) and
load (200), the resume check on the output file (230-239), matcher
allocation (244-291), pair loading (297), matching (303), saving (307),
and the diagnostics tail (316-330). Every `return EXIT_FAILURE` becomes
`exit := 1`. -/
def runMain (cfg : Config) (w : World) : RunResult :=
  if cfg.pair_list = "" then { startResult w with exit := 1 }
  else if cfg.output_file = "" then { startResult w with exit := 1 }
  else if w.sceneLoadOk then
    let r1 := { startResult w with sceneLoaded := true }
    if w.regionsTypeOk then
      let r2 := { r1 with regionsTypeLoaded := true
                          providerKind := some (providerFor cfg.cache_size) }
      if w.regionsLoadOk then
        let r3 := { r2 with regionsLoaded := true }
        match cfg.force, w.outFile with
        | false, some prior =>
            match prior with
            | none => { r3 with exit := 1 }
            | some m => finishDiagnostics w { r3 with finalMatches := some m }
        | _, _ =>
            match matcherFor cfg.method w.descKind with
            | none => { r3 with exit := 1 }
            | some mm =>
                let r4 := { r3 with matcherAllocated := some mm }
                match loadPairs w.views.card w.pairSource with
                | .error _ => { r4 with exit := 1 }
                | .ok pairs =>
                    let pm := engineMatch mm cfg.ratio w.regions pairs
                    let r5 := { r4 with pairsLoaded := some pairs
                                        matchingPerformed := true
                                        finalMatches := some pm }
                    if w.saveOk then
                      finishDiagnostics w
                        { r5 with savedOutput := true
                                  outFileAfter := some (some pm) }
                    else { r5 with exit := 1 }
      else { r2 with exit := 1 }
    else { r1 with exit := 1 }
  else { startResult w with exit := 1 }

/-! Concrete fixtures used by the closed witness statements. -/

/-- A small disk of regions: every view has three 2-dimensional scalar
descriptors. -/
def exRegions : ViewId → Option RegionSet := fun _ => some [[0, 0], [9, 9], [10, 10]]

/-- A previously saved result file with one matched pair and one empty
entry. -/
def exMatches : PairWiseMatches := [((0, 1), [(0, 0)]), ((1, 2), [])]

/-- A world where every external interaction succeeds and a valid output
file is already present. -/
def exWorld : World :=
  { sceneLoadOk := true, views := {0, 1, 2}, regionsTypeOk := true
    descKind := .scalar, regionsLoadOk := true, outFile := some (some exMatches)
    pairSource := some [(1, 0), (1, 2), (0, 1)], regions := exRegions
    saveOk := true, svgWriteOk := true, graphWriteOk := true }

/-- A configuration with the source defaults (method `AUTO`, ratio 0.8,
force off, unbounded cache). -/
def exCfg : Config :=
  { input_file := "scene.json", output_file := "matches.bin"
    pair_list := "pairs.txt", ratio := 4 / 5, method := "AUTO"
    force := false, cache_size := 0 }

/-! ## Claims -/

/-- C3: the `AUTO` selector resolves to the fast precomputed-hash cascade
hashing matcher for scalar (numeric-vector) descriptors and to brute-force
Hamming for binary descriptors (source lines 244-256). -/
theorem auto_resolves_by_descriptor_kind :
    matcherFor "AUTO" DescKind.scalar = some MatcherMethod.CASCADE_HASHING_FAST ∧
    matcherFor "AUTO" DescKind.binary = some MatcherMethod.BRUTE_FORCE_HAMMING :=
  ⟨rfl, rfl⟩

/-- C1: when the output file already exists and force is off, the
matching-engine stage is skipped entirely (no matcher allocated, no pairs
loaded, no matching performed, no save), the loaded file becomes the final
result, the run succeeds, and the output path is left byte-for-byte
untouched — so a second run over an existing valid output does zero
matching work and changes nothing. -/
theorem resume_adopts_existing_output (cfg : Config) (w : World)
    (m : PairWiseMatches)
    (hpl : ¬cfg.pair_list = "") (hof : ¬cfg.output_file = "")
    (hs : w.sceneLoadOk = true) (ht : w.regionsTypeOk = true)
    (hr : w.regionsLoadOk = true) (hf : cfg.force = false)
    (hout : w.outFile = some (some m)) :
    (runMain cfg w).exit = 0 ∧
    (runMain cfg w).matchingPerformed = false ∧
    (runMain cfg w).matcherAllocated = none ∧
    (runMain cfg w).pairsLoaded = none ∧
    (runMain cfg w).savedOutput = false ∧
    (runMain cfg w).finalMatches = some m ∧
    (runMain cfg w).outFileAfter = w.outFile := by
  simp [runMain, hpl, hof, hs, ht, hr, hf, hout, finishDiagnostics, startResult]

/-- Closed instance of `resume_adopts_existing_output` at the concrete
fixture run. -/
theorem resume_adopts_existing_output_witness :
    (runMain exCfg exWorld).exit = 0 ∧
    (runMain exCfg exWorld).matchingPerformed = false ∧
    (runMain exCfg exWorld).matcherAllocated = none ∧
    (runMain exCfg exWorld).pairsLoaded = none ∧
    (runMain exCfg exWorld).savedOutput = false ∧
    (runMain exCfg exWorld).finalMatches = some exMatches ∧
    (runMain exCfg exWorld).outFileAfter = exWorld.outFile :=
  resume_adopts_existing_output exCfg exWorld exMatches
    (by decide) (by decide) rfl rfl rfl rfl rfl

/-- C9: on the resume path (output exists, force off) the method selector
is never validated: a run whose selector allocates no matcher at all
(unrecognized, or incompatible `AUTO`) still completes with exit status 0,
because matcher allocation happens only on the recompute branch. -/
theorem resume_never_validates_selector (cfg : Config) (w : World)
    (m : PairWiseMatches)
    (hpl : ¬cfg.pair_list = "") (hof : ¬cfg.output_file = "")
    (hs : w.sceneLoadOk = true) (ht : w.regionsTypeOk = true)
    (hr : w.regionsLoadOk = true) (hf : cfg.force = false)
    (hout : w.outFile = some (some m))
    (_hbad : matcherFor cfg.method w.descKind = none) :
    (runMain cfg w).exit = 0 ∧
    (runMain cfg w).matcherAllocated = none := by
  simp [runMain, hpl, hof, hs, ht, hr, hf, hout, finishDiagnostics, startResult]

/-- Closed instance of `resume_never_validates_selector`: the unrecognized
selector `NOSUCHMETHOD` resumes successfully. -/
theorem resume_never_validates_selector_witness :
    (runMain { exCfg with method := "NOSUCHMETHOD" } exWorld).exit = 0 ∧
    (runMain { exCfg with method := "NOSUCHMETHOD" } exWorld).matcherAllocated = none :=
  resume_never_validates_selector { exCfg with method := "NOSUCHMETHOD" }
    exWorld exMatches (by decide) (by decide) rfl rfl rfl rfl rfl (by decide)

/-- C10: the regions-type initialisation and the provider load both run
before the resume check, so a run whose regions type file cannot be loaded
or whose region data cannot be loaded fails with a nonzero status even
when a valid output file exists and force is off (the world here is
unconstrained in `outFile` and `force`): no matching happens and no result
is adopted. -/
theorem regions_load_precedes_resume (cfg : Config) (w : World)
    (hpl : ¬cfg.pair_list = "") (hof : ¬cfg.output_file = "")
    (hs : w.sceneLoadOk = true)
    (hfail : w.regionsTypeOk = false ∨ w.regionsLoadOk = false) :
    (runMain cfg w).exit = 1 ∧
    (runMain cfg w).regionsLoaded = false ∧
    (runMain cfg w).matchingPerformed = false ∧
    (runMain cfg w).finalMatches = none := by
  rcases hfail with ht | hr
  · simp [runMain, hpl, hof, hs, ht, startResult]
  · cases ht : w.regionsTypeOk
    · simp [runMain, hpl, hof, hs, ht, startResult]
    · simp [runMain, hpl, hof, hs, ht, hr, startResult]

/-- Closed instances of `regions_load_precedes_resume` on would-be resume
runs (valid output present, force off): one whose regions type file fails
to load, one whose region data fails to load. -/
theorem regions_load_precedes_resume_witness :
    ((runMain exCfg { exWorld with regionsTypeOk := false }).exit = 1 ∧
     (runMain exCfg { exWorld with regionsTypeOk := false }).regionsLoaded = false ∧
     (runMain exCfg { exWorld with regionsTypeOk := false }).matchingPerformed = false ∧
     (runMain exCfg { exWorld with regionsTypeOk := false }).finalMatches = none) ∧
    ((runMain exCfg { exWorld with regionsLoadOk := false }).exit = 1 ∧
     (runMain exCfg { exWorld with regionsLoadOk := false }).regionsLoaded = false ∧
     (runMain exCfg { exWorld with regionsLoadOk := false }).matchingPerformed = false ∧
     (runMain exCfg { exWorld with regionsLoadOk := false }).finalMatches = none) :=
  ⟨regions_load_precedes_resume exCfg { exWorld with regionsTypeOk := false }
     (by decide) (by decide) rfl (Or.inl rfl),
   regions_load_precedes_resume exCfg { exWorld with regionsLoadOk := false }
     (by decide) (by decide) rfl (Or.inr rfl)⟩

/-- C2 counterexample: it is not true that every explicit unrecognized or
descriptor-incompatible selector fails before any work. First, the
recognized selector `BRUTEFORCEHAMMING` with scalar descriptors
(incompatible per the usage text) is accepted and the run completes with
exit 0. Second, the unrecognized selector `NOSUCHMETHOD` does fail, but
only after the scene and the descriptor regions were already loaded. -/
theorem selector_check_not_before_work_counterexample :
    (¬ ∀ (cfg : Config) (w : World),
        ¬cfg.method = "AUTO" →
        specCompatible cfg.method w.descKind = false →
        ¬(runMain cfg w).exit = 0 ∧
        (runMain cfg w).sceneLoaded = false ∧
        (runMain cfg w).regionsLoaded = false ∧
        (runMain cfg w).matchingPerformed = false) ∧
    (runMain { exCfg with method := "NOSUCHMETHOD", force := true } exWorld).exit = 1 ∧
    (runMain { exCfg with method := "NOSUCHMETHOD", force := true } exWorld).sceneLoaded = true ∧
    (runMain { exCfg with method := "NOSUCHMETHOD", force := true } exWorld).regionsLoaded = true := by
  refine ⟨fun h => ?_, by decide, by decide, by decide⟩
  have h2 := h { exCfg with method := "BRUTEFORCEHAMMING", force := true } exWorld
    (by decide) (by decide)
  exact h2.1 (by decide)

/-- C2 amended: on the recompute path, a selector for which no matcher can
be allocated (an unrecognized name, or `AUTO` with a descriptor type that
is neither scalar nor binary) aborts the run with a fatal error before any
matching, pair loading or output write — but after scene loading and
descriptor-region loading; and a recognized selector that is incompatible
with the declared descriptor type (such as `BRUTEFORCEHAMMING` on scalar
descriptors) is not rejected at configuration time at all. -/
theorem selector_check_amended :
    (∀ (cfg : Config) (w : World),
      ¬cfg.pair_list = "" → ¬cfg.output_file = "" →
      w.sceneLoadOk = true → w.regionsTypeOk = true → w.regionsLoadOk = true →
      (cfg.force = true ∨ w.outFile = none) →
      matcherFor cfg.method w.descKind = none →
      (runMain cfg w).exit = 1 ∧
      (runMain cfg w).matcherAllocated = none ∧
      (runMain cfg w).matchingPerformed = false ∧
      (runMain cfg w).pairsLoaded = none ∧
      (runMain cfg w).savedOutput = false ∧
      (runMain cfg w).outFileAfter = w.outFile ∧
      (runMain cfg w).sceneLoaded = true ∧
      (runMain cfg w).regionsLoaded = true) ∧
    matcherFor "BRUTEFORCEHAMMING" DescKind.scalar = some MatcherMethod.BRUTE_FORCE_HAMMING ∧
    specCompatible "BRUTEFORCEHAMMING" DescKind.scalar = false := by
  refine ⟨fun cfg w hpl hof hs ht hr hrc hm => ?_, rfl, rfl⟩
  rcases hrc with hfo | hnf
  · simp [runMain, hpl, hof, hs, ht, hr, hfo, hm, startResult]
  · cases hcf : cfg.force
    · simp [runMain, hpl, hof, hs, ht, hr, hcf, hnf, hm, startResult]
    · simp [runMain, hpl, hof, hs, ht, hr, hcf, hm, startResult]

/-- Closed instance of `selector_check_amended` at the unrecognized
selector `NOSUCHMETHOD` on a forced recompute run. -/
theorem selector_check_amended_witness :
    (runMain { exCfg with method := "NOSUCHMETHOD", force := true } exWorld).exit = 1 ∧
    (runMain { exCfg with method := "NOSUCHMETHOD", force := true } exWorld).matcherAllocated = none ∧
    (runMain { exCfg with method := "NOSUCHMETHOD", force := true } exWorld).matchingPerformed = false ∧
    (runMain { exCfg with method := "NOSUCHMETHOD", force := true } exWorld).pairsLoaded = none ∧
    (runMain { exCfg with method := "NOSUCHMETHOD", force := true } exWorld).savedOutput = false ∧
    (runMain { exCfg with method := "NOSUCHMETHOD", force := true } exWorld).outFileAfter = exWorld.outFile ∧
    (runMain { exCfg with method := "NOSUCHMETHOD", force := true } exWorld).sceneLoaded = true ∧
    (runMain { exCfg with method := "NOSUCHMETHOD", force := true } exWorld).regionsLoaded = true :=
  selector_check_amended.1 { exCfg with method := "NOSUCHMETHOD", force := true }
    exWorld (by decide) (by decide) rfl rfl rfl (Or.inl rfl) (by decide)

/-- C6: a failed save of the final match file aborts the run with a
nonzero status and leaves the output path as it was (no durable
completion), whereas failures of the diagnostic exports (adjacency SVG,
graphviz pair graph) are best-effort: the run still exits 0 and the saved
PutativeMatches file stays in place. -/
theorem save_fatal_diagnostics_nonfatal :
    (∀ (cfg : Config) (w : World),
      ¬cfg.pair_list = "" → ¬cfg.output_file = "" →
      w.sceneLoadOk = true → w.regionsTypeOk = true → w.regionsLoadOk = true →
      cfg.force = true →
      ∀ mm, matcherFor cfg.method w.descKind = some mm →
      ∀ pairs, loadPairs w.views.card w.pairSource = Except.ok pairs →
      w.saveOk = false →
      (runMain cfg w).exit = 1 ∧
      (runMain cfg w).savedOutput = false ∧
      (runMain cfg w).outFileAfter = w.outFile) ∧
    (∀ (cfg : Config) (w : World),
      ¬cfg.pair_list = "" → ¬cfg.output_file = "" →
      w.sceneLoadOk = true → w.regionsTypeOk = true → w.regionsLoadOk = true →
      cfg.force = true →
      ∀ mm, matcherFor cfg.method w.descKind = some mm →
      ∀ pairs, loadPairs w.views.card w.pairSource = Except.ok pairs →
      w.saveOk = true → w.svgWriteOk = false → w.graphWriteOk = false →
      (runMain cfg w).exit = 0 ∧
      (runMain cfg w).savedOutput = true ∧
      (runMain cfg w).outFileAfter =
        some (some (engineMatch mm cfg.ratio w.regions pairs)) ∧
      (runMain cfg w).svgWritten = false ∧
      (runMain cfg w).graphWritten = false) := by
  constructor
  · intro cfg w hpl hof hs ht hr hfo mm hmm pairs hpairs hsave
    simp [runMain, hpl, hof, hs, ht, hr, hfo, hmm, hpairs, hsave, startResult]
  · intro cfg w hpl hof hs ht hr hfo mm hmm pairs hpairs hsave hsvg hgr
    simp [runMain, hpl, hof, hs, ht, hr, hfo, hmm, hpairs, hsave, hsvg, hgr,
      finishDiagnostics, startResult]

/-- Closed instance of `save_fatal_diagnostics_nonfatal`: one forced
recompute run whose save fails (exit 1, file untouched) and one whose save
succeeds but both diagnostic exports fail (exit 0, file persisted). -/
theorem save_fatal_diagnostics_nonfatal_witness :
    ((runMain { exCfg with force := true } { exWorld with saveOk := false }).exit = 1 ∧
     (runMain { exCfg with force := true } { exWorld with saveOk := false }).savedOutput = false ∧
     (runMain { exCfg with force := true } { exWorld with saveOk := false }).outFileAfter =
       ({ exWorld with saveOk := false } : World).outFile) ∧
    ((runMain { exCfg with force := true }
        { exWorld with svgWriteOk := false, graphWriteOk := false }).exit = 0 ∧
     (runMain { exCfg with force := true }
        { exWorld with svgWriteOk := false, graphWriteOk := false }).savedOutput = true ∧
     (runMain { exCfg with force := true }
        { exWorld with svgWriteOk := false, graphWriteOk := false }).outFileAfter =
       some (some (engineMatch MatcherMethod.CASCADE_HASHING_FAST ((4 : ℚ) / 5)
         exRegions [(1, 2), (0, 1)])) ∧
     (runMain { exCfg with force := true }
        { exWorld with svgWriteOk := false, graphWriteOk := false }).svgWritten = false ∧
     (runMain { exCfg with force := true }
        { exWorld with svgWriteOk := false, graphWriteOk := false }).graphWritten = false) :=
  ⟨save_fatal_diagnostics_nonfatal.1 { exCfg with force := true }
      { exWorld with saveOk := false } (by decide) (by decide) rfl rfl rfl rfl
      MatcherMethod.CASCADE_HASHING_FAST (by decide) [(1, 2), (0, 1)] rfl rfl,
   save_fatal_diagnostics_nonfatal.2 { exCfg with force := true }
      { exWorld with svgWriteOk := false, graphWriteOk := false }
      (by decide) (by decide) rfl rfl rfl rfl
      MatcherMethod.CASCADE_HASHING_FAST (by decide) [(1, 2), (0, 1)] rfl
      rfl rfl rfl⟩

/-- A canonicalized pair has its smaller id first. -/
theorem canonPair_le (q : Nat × Nat) : (canonPair q).1 ≤ (canonPair q).2 := by
  unfold canonPair
  by_cases h : q.1 ≤ q.2
  · rw [if_pos h]
    exact h
  · rw [if_neg h]
    exact le_of_not_le h

/-- C5: pair-list loading fails with `InvalidPair` as soon as any
referenced id reaches the view count, with `ParseError` on a malformed
source; any such failure aborts the run with exit status 1 before any
matching or saving; and a successful load returns canonical keys with no
duplicates, each coming from a (possibly reversed or repeated) source
entry. -/
theorem load_pairs_contract :
    (∀ (vc : Nat) (l : List (Nat × Nat)) (p : Nat × Nat), p ∈ l →
      vc ≤ p.1 ∨ vc ≤ p.2 →
      loadPairs vc (some l) = Except.error PairError.InvalidPair) ∧
    (∀ vc : Nat, loadPairs vc none = Except.error PairError.ParseError) ∧
    (∀ (cfg : Config) (w : World),
      ¬cfg.pair_list = "" → ¬cfg.output_file = "" →
      w.sceneLoadOk = true → w.regionsTypeOk = true → w.regionsLoadOk = true →
      cfg.force = true →
      ∀ mm, matcherFor cfg.method w.descKind = some mm →
      ∀ e, loadPairs w.views.card w.pairSource = Except.error e →
      (runMain cfg w).exit = 1 ∧
      (runMain cfg w).matchingPerformed = false ∧
      (runMain cfg w).savedOutput = false) ∧
    (∀ (vc : Nat) (l : List (Nat × Nat)) (ps : List PairKey),
      loadPairs vc (some l) = Except.ok ps →
      ps.Nodup ∧ ∀ p ∈ ps, p.1 ≤ p.2 ∧ p ∈ l.map canonPair) := by
  refine ⟨?_, fun vc => rfl, ?_, ?_⟩
  · intro vc l p hp hle
    have hany : l.any (fun q => vc ≤ q.1 || vc ≤ q.2) = true := by
      refine List.any_eq_true.mpr ⟨p, hp, ?_⟩
      simpa [Bool.or_eq_true, decide_eq_true_eq] using hle
    simp [loadPairs, hany]
  · intro cfg w hpl hof hs ht hr hfo mm hmm e he
    simp [runMain, hpl, hof, hs, ht, hr, hfo, hmm, he, startResult]
  · intro vc l ps h
    simp only [loadPairs] at h
    split at h
    · cases h
    · injection h with h
      subst h
      refine ⟨List.nodup_dedup _, fun p hp => ?_⟩
      have hmem : p ∈ l.map canonPair := List.mem_dedup.mp hp
      refine ⟨?_, hmem⟩
      obtain ⟨q, _, hq⟩ := List.mem_map.mp hmem
      rw [← hq]
      exact canonPair_le q

/-- Closed instance of `load_pairs_contract`: an out-of-range id, a
malformed source, a run aborted by a pair-load failure, and a successful
load with duplicate and order-reversed entries collapsed. -/
theorem load_pairs_contract_witness :
    loadPairs 3 (some [(0, 5)]) = Except.error PairError.InvalidPair ∧
    loadPairs 3 none = Except.error PairError.ParseError ∧
    ((runMain { exCfg with force := true }
        { exWorld with pairSource := some [(0, 5)] }).exit = 1 ∧
     (runMain { exCfg with force := true }
        { exWorld with pairSource := some [(0, 5)] }).matchingPerformed = false ∧
     (runMain { exCfg with force := true }
        { exWorld with pairSource := some [(0, 5)] }).savedOutput = false) ∧
    (([(1, 2), (0, 1)] : List PairKey).Nodup ∧
     ∀ p ∈ ([(1, 2), (0, 1)] : List PairKey),
       p.1 ≤ p.2 ∧ p ∈ ([(1, 0), (1, 2), (0, 1)] : List (Nat × Nat)).map canonPair) :=
  ⟨load_pairs_contract.1 3 [(0, 5)] (0, 5) (by decide) (Or.inr (by decide)),
   load_pairs_contract.2.1 3,
   load_pairs_contract.2.2.1 { exCfg with force := true }
     { exWorld with pairSource := some [(0, 5)] } (by decide) (by decide)
     rfl rfl rfl rfl MatcherMethod.CASCADE_HASHING_FAST (by decide)
     PairError.InvalidPair rfl,
   load_pairs_contract.2.2.2 3 [(1, 0), (1, 2), (0, 1)] [(1, 2), (0, 1)] rfl⟩

/-- C8: the engine stores one entry per attempted pair, also when the
retained list is empty, and nothing else: the key list of the output is
exactly the input pair list. -/
theorem engine_stores_exactly_attempted_pairs (mm : MatcherMethod)
    (ratio : ℚ) (regions : ViewId → Option RegionSet) (pairs : List PairKey) :
    (engineMatch mm ratio regions pairs).map Prod.fst = pairs ∧
    ∀ p : PairKey,
      (∃ l, (p, l) ∈ engineMatch mm ratio regions pairs) ↔ p ∈ pairs := by
  constructor
  · rw [engineMatch, List.map_map]
    exact List.map_id pairs
  · intro p
    constructor
    · rintro ⟨l, hl⟩
      obtain ⟨q, hq, heq⟩ := List.mem_map.mp hl
      obtain ⟨h1, _⟩ := Prod.mk.injEq .. ▸ heq
      exact h1 ▸ hq
    · intro hp
      exact ⟨_, List.mem_map_of_mem _ hp⟩

/-- Closed instance of `engine_stores_exactly_attempted_pairs`: the keys
of a concrete engine output, including the pair whose retained list is
empty, are exactly the attempted pairs; the unattempted pair `(0, 2)` is
absent. -/
theorem engine_stores_exactly_attempted_pairs_witness :
    (engineMatch MatcherMethod.BRUTE_FORCE_L2 ((4 : ℚ) / 5) exRegions
        [(0, 1), (1, 2)]).map Prod.fst = [(0, 1), (1, 2)] ∧
    ¬ ∃ l, ((0, 2), l) ∈ engineMatch MatcherMethod.BRUTE_FORCE_L2 ((4 : ℚ) / 5)
        exRegions [(0, 1), (1, 2)] :=
  ⟨(engine_stores_exactly_attempted_pairs MatcherMethod.BRUTE_FORCE_L2
      ((4 : ℚ) / 5) exRegions [(0, 1), (1, 2)]).1,
   fun h =>
     absurd (((engine_stores_exactly_attempted_pairs MatcherMethod.BRUTE_FORCE_L2
       ((4 : ℚ) / 5) exRegions [(0, 1), (1, 2)]).2 (0, 2)).mp h) (by decide)⟩

/-- C7: the diagnostic graph built from a final result has exactly the
scene's view identifiers as nodes (isolated views included) and one edge
per stored pair key with a nonempty correspondence list — given that the
result's keys are unique, as they are for any loaded or computed
`PairWiseMatches`; and the diagnostics tail exports exactly this graph for
the final result. -/
theorem graph_nodes_and_edges (V : Finset ViewId) (m : PairWiseMatches)
    (h : (m.map Prod.fst).Nodup) :
    (buildGraph V m).nodes = V ∧
    (buildGraph V m).nodes.card = V.card ∧
    (buildGraph V m).edges.card = (m.filter (fun e => !e.2.isEmpty)).length ∧
    ∀ (w : World) (r : RunResult) (pm : PairWiseMatches),
      r.finalMatches = some pm →
      (finishDiagnostics w r).graph = some (buildGraph w.views pm) := by
  refine ⟨rfl, rfl, ?_, ?_⟩
  · have hsub : ((m.filter fun e => !e.2.isEmpty).map Prod.fst).Sublist
        (m.map Prod.fst) := (List.filter_sublist m).map Prod.fst
    have hnd : ((m.filter fun e => !e.2.isEmpty).map Prod.fst).Nodup :=
      List.Nodup.sublist hsub h
    show ((m.filter fun e => !e.2.isEmpty).map Prod.fst).toFinset.card = _
    rw [List.toFinset_card_of_nodup hnd, List.length_map]
  · intro w r pm hpm
    simp [finishDiagnostics, hpm]

/-- Closed instance of `graph_nodes_and_edges` at the fixture result: two
stored keys, one of them empty, give exactly one edge over the three
scene views. -/
theorem graph_nodes_and_edges_witness :
    (buildGraph {0, 1, 2} exMatches).nodes = {0, 1, 2} ∧
    (buildGraph {0, 1, 2} exMatches).edges.card =
      (exMatches.filter (fun e => !e.2.isEmpty)).length ∧
    (finishDiagnostics exWorld
        { startResult exWorld with finalMatches := some exMatches }).graph =
      some (buildGraph exWorld.views exMatches) :=
  ⟨(graph_nodes_and_edges {0, 1, 2} exMatches (by decide)).1,
   (graph_nodes_and_edges {0, 1, 2} exMatches (by decide)).2.2.1,
   (graph_nodes_and_edges {0, 1, 2} exMatches (by decide)).2.2.2 exWorld
     { startResult exWorld with finalMatches := some exMatches } exMatches rfl⟩

/-- On the eagerly built table, looking a view up returns exactly its disk
content, provided every listed view's data loaded. -/
theorem eagerFetch_filterMap (disk : ViewId → Option RegionSet) :
    ∀ views : List ViewId,
      (∀ u ∈ views, (disk u).isSome = true) →
      ∀ v ∈ views,
        eagerFetch (views.filterMap (fun u => (disk u).map (fun r => (u, r)))) v
          = disk v := by
  intro views
  induction views with
  | nil => intro _ v hv; cases hv
  | cons u rest ih =>
      intro hall v hv
      obtain ⟨ru, hru⟩ := Option.isSome_iff_exists.mp
        (hall u (List.mem_cons_self u rest))
      rw [List.filterMap_cons_some (by rw [hru]; rfl)]
      by_cases hvu : u = v
      · subst hvu
        simp [eagerFetch, hru]
      · have hbeq : ((u : ViewId) == v) = false := by
          simp [hvu]
        simp only [eagerFetch, List.find?_cons, hbeq]
        exact ih (fun x hx => hall x (List.mem_cons_of_mem _ hx)) v
          ((List.mem_cons.mp hv).resolve_left (fun hh => hvu hh.symm))

/-- C4: the region provider's mode follows the cache-capacity parameter —
capacity 0 yields the unbounded provider, capacity C > 0 the bounded cache
of capacity C — and the modelled providers behave as specified: the
unbounded one answers every view's fetch with its eagerly loaded data and
never fails after a successful construction, while the bounded one starts
empty (lazy), keeps its capacity fixed, and never holds more entries than
its capacity. -/
theorem provider_mode_by_capacity :
    (∀ (cfg : Config) (w : World),
      ¬cfg.pair_list = "" → ¬cfg.output_file = "" →
      w.sceneLoadOk = true → w.regionsTypeOk = true →
      (runMain cfg w).providerKind = some (providerFor cfg.cache_size)) ∧
    providerFor 0 = ProviderKind.unbounded ∧
    (∀ C : Nat, 0 < C → providerFor C = ProviderKind.cache C) ∧
    (∀ (views : List ViewId) (disk : ViewId → Option RegionSet)
       (table : List (ViewId × RegionSet)),
      eagerLoad views disk = some table →
      ∀ v ∈ views, eagerFetch table v = disk v ∧ (disk v).isSome = true) ∧
    (∀ C : Nat, (LruCache.start C).capacity = C ∧ (LruCache.start C).entries = []) ∧
    (∀ (cache : LruCache) (disk : ViewId → Option RegionSet) (v : ViewId),
      cache.entries.length ≤ cache.capacity →
      (cache.fetch disk v).2.entries.length ≤ cache.capacity ∧
      (cache.fetch disk v).2.capacity = cache.capacity) := by
  refine ⟨?_, rfl, ?_, ?_, fun C => ⟨rfl, rfl⟩, ?_⟩
  · intro cfg w hpl hof hs ht
    cases hreg : w.regionsLoadOk
    · simp [runMain, hpl, hof, hs, ht, hreg, startResult]
    · cases hforce : cfg.force
      · rcases houtf : w.outFile with _ | prior
        · rcases hm : matcherFor cfg.method w.descKind with _ | mm
          · simp [runMain, hpl, hof, hs, ht, hreg, hforce, houtf, hm, startResult]
          · rcases hp : loadPairs w.views.card w.pairSource with e | ps
            · simp [runMain, hpl, hof, hs, ht, hreg, hforce, houtf, hm, hp,
                startResult]
            · cases hsv : w.saveOk
              · simp [runMain, hpl, hof, hs, ht, hreg, hforce, houtf, hm, hp,
                  hsv, startResult]
              · simp [runMain, hpl, hof, hs, ht, hreg, hforce, houtf, hm, hp,
                  hsv, startResult, finishDiagnostics]
        · rcases prior with _ | pm
          · simp [runMain, hpl, hof, hs, ht, hreg, hforce, houtf, startResult]
          · simp [runMain, hpl, hof, hs, ht, hreg, hforce, houtf, startResult,
              finishDiagnostics]
      · rcases hm : matcherFor cfg.method w.descKind with _ | mm
        · simp [runMain, hpl, hof, hs, ht, hreg, hforce, hm, startResult]
        · rcases hp : loadPairs w.views.card w.pairSource with e | ps
          · simp [runMain, hpl, hof, hs, ht, hreg, hforce, hm, hp, startResult]
          · cases hsv : w.saveOk
            · simp [runMain, hpl, hof, hs, ht, hreg, hforce, hm, hp, hsv,
                startResult]
            · simp [runMain, hpl, hof, hs, ht, hreg, hforce, hm, hp, hsv,
                startResult, finishDiagnostics]
  · intro C hC
    unfold providerFor
    rw [if_neg (Nat.pos_iff_ne_zero.mp hC)]
  · intro views disk table hload v hv
    have hall : views.all (fun u => (disk u).isSome) = true := by
      by_contra hno
      rw [eagerLoad, if_neg hno] at hload
      cases hload
    have hall' : ∀ u ∈ views, (disk u).isSome = true := fun u hu =>
      List.all_eq_true.mp hall u hu
    have htab : table = views.filterMap (fun u => (disk u).map (fun r => (u, r))) := by
      rw [eagerLoad, if_pos hall] at hload
      cases hload
      rfl
    subst htab
    exact ⟨eagerFetch_filterMap disk views hall' v hv, hall' v hv⟩
  · intro cache disk v hlen
    rcases hf : cache.entries.find? (fun e => e.1 == v) with _ | e
    · rcases hd : disk v with _ | r
      · simpa [LruCache.fetch, hf, hd] using hlen
      · constructor
        · simp only [LruCache.fetch, hf, hd]
          simp [List.length_take]
        · simp [LruCache.fetch, hf, hd]
    · have hmem := List.mem_of_find?_eq_some hf
      have hpa : ((fun (x : ViewId × RegionSet) => x.1 == v) e) = true :=
        @List.find?_some _ (fun (x : ViewId × RegionSet) => x.1 == v) e
          cache.entries hf
      have hone := @List.length_eraseP_add_one _
        (fun (x : ViewId × RegionSet) => x.1 == v) cache.entries e hmem hpa
      constructor
      · simp only [LruCache.fetch, hf, List.length_cons]
        omega
      · simp [LruCache.fetch, hf]

/-- Closed instance of `provider_mode_by_capacity`: the fixture run with
cache size 0 records the unbounded provider; capacity 3 selects the cache
of capacity 3; a one-view eager table answers its view's fetch; a fresh
bounded cache of capacity 2 is empty; and a fetch on a cache holding one
of two slots respects the capacity bound. -/
theorem provider_mode_by_capacity_witness :
    (runMain exCfg exWorld).providerKind = some (providerFor 0) ∧
    providerFor 3 = ProviderKind.cache 3 ∧
    (eagerFetch [(0, [[1, 2]])] 0 = some [[1, 2]] ∧
      (some [[1, 2]] : Option RegionSet).isSome = true) ∧
    ((LruCache.start 2).capacity = 2 ∧ (LruCache.start 2).entries = []) ∧
    ((LruCache.fetch ⟨2, [(5, [[0]])]⟩ (fun _ => some [[1, 2]]) 7).2.entries.length ≤ 2 ∧
      (LruCache.fetch ⟨2, [(5, [[0]])]⟩ (fun _ => some [[1, 2]]) 7).2.capacity = 2) :=
  ⟨provider_mode_by_capacity.1 exCfg exWorld (by decide) (by decide) rfl rfl,
   provider_mode_by_capacity.2.2.1 3 (by decide),
   provider_mode_by_capacity.2.2.2.1 [0] (fun _ => some [[1, 2]])
     [(0, [[1, 2]])] rfl 0 (by decide),
   provider_mode_by_capacity.2.2.2.2.1 2,
   provider_mode_by_capacity.2.2.2.2.2 ⟨2, [(5, [[0]])]⟩
     (fun _ => some [[1, 2]]) 7 (by decide)⟩

end ComputeMatches
